import Mathlib

/-!
Shallow embedding of the photo-scope-app backend (src/backend/main.py).

The backend is a single FastAPI module:
  * analyze_damage_with_ai(image_path): reads the image bytes, calls the
    OpenAI vision endpoint, parses the response body with json.loads, and on
    any exception inside the try block returns a fixed fallback dictionary.
  * upload_images(files): for each uploaded file, stores it under
    uploads/<filename>, runs analyze_damage_with_ai, extracts scope,
    line_items and subtotal from the returned dictionary, accumulates
    total_estimate, then draws a PDF report into
    reports/<job_id>_scope_report.pdf and returns job_id, total_estimate,
    results.
  * download_report(job_id): serves reports/<job_id>_scope_report.pdf if the
    file exists, else a "Report not found" error body.

Modelling conventions:
  * JSON values returned by json.loads are the inductive type Json below.
  * Numeric fields are exact rationals (the Python code manipulates numbers
    decoded from JSON); Python round(x, 2) is modelled by round2, which uses
    round-half-to-even as Python does.
  * Dictionary field presence is modelled with Option: analysis.get(k, d)
    becomes Option.getD.
  * Exceptions are modelled with Except; an exception that no handler catches
    aborts the whole request.
  * The PDF canvas is modelled as the list of drawString operations emitted,
    each carrying its page number, x/y coordinates and payload; showPage
    increments the page counter and resets y to 750.
-/

/-- A JSON value as produced by json.loads. -/
inductive Json where
  | null : Json
  | bool : Bool → Json
  | num : ℚ → Json
  | str : String → Json
  | arr : List Json → Json
  | obj : List (String × Json) → Json

namespace PhotoScope

/-- Outcome of the external vision call followed by json.loads, as seen by
the try block of analyze_damage_with_ai: the HTTP/SDK call can raise, the
response text can fail to parse, or json.loads yields some Json value. -/
inductive AIOutcome where
  | apiError : AIOutcome
  | invalidJson : AIOutcome
  | parsed : Json → AIOutcome

/-- The fallback dictionary returned by the except-branch of
analyze_damage_with_ai: scope text, empty line_items, subtotal 0. -/
def fallbackAssessment : Json :=
  .obj [("scope", .str "Unable to analyze image automatically."),
        ("line_items", .arr []),
        ("subtotal", .num 0)]

/-- analyze_damage_with_ai, after the image bytes have been read: the try
block either returns json.loads(result_text) unchanged, or, when the API
call or the parse raises, the fallback dictionary. -/
def analyze_damage_with_ai : AIOutcome → Json
  | .apiError => fallbackAssessment
  | .invalidJson => fallbackAssessment
  | .parsed j => j

/-- Python dict.get(key, default) on a parsed JSON object; the caller
upload_images applies .get to the value analyze_damage_with_ai returned,
which raises AttributeError unless that value is a dict. -/
def Json.getField : Json → String → Option Json
  | .obj kvs, k => kvs.lookup k
  | _, _ => none

/-- A value returned by the assessment step is well-formed for the caller
exactly when it is a JSON object: upload_images immediately calls .get on
it, which only dictionaries support. -/
def isWellFormedAssessment : Json → Bool
  | .obj _ => true
  | _ => false

/-- Reading the stored image file happens before the try block of
analyze_damage_with_ai, so a read failure is not caught there. -/
inductive ImageSource where
  | unreadable : ImageSource
  | readable : AIOutcome → ImageSource

/-- One image's analysis as executed inside the upload loop: open(...).read()
can raise (uncaught), otherwise analyze_damage_with_ai runs its guarded
call. -/
def analyzeImageFile : ImageSource → Except Unit Json
  | .unreadable => .error ()
  | .readable o => .ok (analyze_damage_with_ai o)

/-- The upload loop over the files: sequential, with no per-iteration
exception handler, so the first uncaught exception aborts the request. -/
def analyzeJobImages : List ImageSource → Except Unit (List Json)
  | [] => .ok []
  | s :: rest => do
      let a ← analyzeImageFile s
      let as ← analyzeJobImages rest
      .ok (a :: as)

/-- One line item dictionary as read by upload_images and the PDF code:
every field access is item.get(key, default), so each field is optional.
Values, when present, carry the type the happy path expects. -/
structure RawItem where
  code : Option String
  desc : Option String
  qty : Option ℚ
  price : Option ℚ
  total : Option ℚ
deriving DecidableEq, Repr

/-- The analysis dictionary shape read by upload_images:
analysis.get("scope", ...), analysis.get("line_items", []),
analysis.get("subtotal", ...). -/
structure RawAnalysis where
  scope : Option String
  line_items : Option (List RawItem)
  subtotal : Option ℚ
deriving DecidableEq, Repr

/-- item.get("total", 0), the summand of the generator expression in
upload_images. -/
def itemTotal (it : RawItem) : ℚ := it.total.getD 0

/-- analysis.get("line_items", []). -/
def imageLineItems (a : RawAnalysis) : List RawItem := a.line_items.getD []

/-- analysis.get("subtotal", sum(item.get("total", 0) for item in
line_items)): the assessor-supplied subtotal verbatim when the key is
present, otherwise the sum of the items' totals. -/
def imageSubtotal (a : RawAnalysis) : ℚ :=
  a.subtotal.getD ((imageLineItems a).map itemTotal).sum

/-- The running accumulation total_estimate += subtotal over the images of
one upload request, starting from 0. -/
def totalEstimate (as : List RawAnalysis) : ℚ :=
  as.foldl (fun acc a => acc + imageSubtotal a) 0

/-- The sum of the total field over every line item of every image of a
job. -/
def sumItemTotals (as : List RawAnalysis) : ℚ :=
  (as.map (fun a => ((imageLineItems a).map itemTotal).sum)).sum

/-- One entry of the results list built by upload_images for an image:
filename, scope (default "No scope provided."), line items, subtotal. -/
structure ResultEntry where
  image : String
  scope : String
  line_items : List RawItem
  subtotal : ℚ
deriving DecidableEq, Repr

/-- The results.append({...}) body for one image. -/
def processResult (filename : String) (a : RawAnalysis) : ResultEntry :=
  { image := filename
    scope := a.scope.getD "No scope provided."
    line_items := imageLineItems a
    subtotal := imageSubtotal a }

/-- Python round(x) rounds half to even; round(x, 2) is round(x * 100) / 100
on the exact rational value. -/
def pyRound (q : ℚ) : ℤ :=
  let f := ⌊q⌋
  let r := q - f
  if r < 1 / 2 then f
  else if 1 / 2 < r then f + 1
  else if f % 2 = 0 then f else f + 1

/-- round(x, 2) of the Python source, on exact rationals. -/
def round2 (q : ℚ) : ℚ := (pyRound (q * 100) : ℚ) / 100

/-- The Bay Area Xactimate price table embedded in the prompt string
XACTIMATE_CODES: code, description and dollar price per unit (the textual
per-unit suffix of the price column is elided). In the Python module this
table exists only as prompt text; no code parses it or looks codes up in
it. -/
def xactimateCatalog : List (String × String × ℚ) :=
  [("WTR-101", ("Water extraction, per hour, per technician", 205)),
   ("WTR-102", ("Carpet water extraction, per sq. ft.", 3.40)),
   ("DRY-202", ("Dehumidifier rental, per day", 55)),
   ("DRY-203", ("Air mover rental, per day", 35)),
   ("CLN-303", ("Antimicrobial application, per sq. ft.", 2.10)),
   ("CLN-304", ("HEPA vacuuming, per sq. ft.", 1.05)),
   ("FRM-401", ("Remove and replace drywall, per sq. ft.", 4.15)),
   ("FRM-402", ("Remove and replace insulation, per sq. ft.", 1.80)),
   ("PAI-501", ("Interior wall painting, per sq. ft.", 2.45)),
   ("CLN-601", ("Smoke odor removal with ozone machine, per day", 85)),
   ("CLN-602", ("Thermal fogging for smoke odor, per sq. ft.", 1.70)),
   ("CLN-603", ("Soot cleaning, heavy, per sq. ft.", 2.70)),
   ("FRM-701", ("Replace fire-damaged framing, per linear foot", 11.80)),
   ("FRM-702", ("Replace roof decking, per sq. ft.", 4.95)),
   ("PAI-701", ("Stain-block primer for smoke, per sq. ft.", 2.15)),
   ("CLN-801", ("Mold remediation labor, per hour", 74)),
   ("CLN-802", ("Negative air machine rental, per day", 60)),
   ("CLN-803", ("Containment barrier installation, per sq. ft.", 1.45)),
   ("CLN-804", ("Removal & disposal of contaminated drywall, per sq. ft.", 3.50)),
   ("CLN-805", ("Application of fungicidal sealant, per sq. ft.", 2.45)),
   ("FRM-901", ("Emergency board-up, per sq. ft.", 6.20)),
   ("FRM-902", ("Roof tarp installation, per sq. ft.", 4.70)),
   ("FRM-903", ("Window replacement, standard size", 595)),
   ("FRM-904", ("Siding repair, vinyl, per sq. ft.", 3.10)),
   ("FRM-905", ("Fence panel replacement, wood, per panel", 100))]

/-- Catalog lookup by exact code. -/
def catalogEntry (code : String) : Option (String × ℚ) :=
  xactimateCatalog.lookup code

/-- The catalog's dollar price for a code, when the code is in the table. -/
def catalogPrice (code : String) : Option ℚ :=
  (catalogEntry code).map Prod.snd

/-- The catalog's description for a code, when the code is in the table. -/
def catalogDesc (code : String) : Option String :=
  (catalogEntry code).map Prod.fst

/-- Payload of one canvas.drawString call. Numeric payloads are kept
structured (the exact rational that Python would format into the string),
so that what was drawn can be compared with the item fields it came from. -/
inductive Cell where
  | text : String → Cell
  | strOpt : Option String → Cell
  | numOpt : Option ℚ → Cell
  | money : ℚ → Cell
  | labeled : String → ℚ → Cell
deriving DecidableEq, Repr

/-- One drawString operation: the page it lands on, its x and y coordinates
(the Python code only ever uses integer coordinates), and its payload. The
page's printable area ends at y = 0 (bottom edge of a letter page); an
operation with y < 0 is drawn outside the page. -/
structure DrawOp where
  page : ℕ
  x : ℤ
  y : ℤ
  cell : Cell
deriving DecidableEq, Repr

/-- Canvas state while upload_images draws the PDF: current page number,
current y cursor, and the operations emitted so far. -/
structure RState where
  page : ℕ
  y : ℤ
  ops : List DrawOp
deriving DecidableEq, Repr

/-- canvas.drawString(x, s.y, cell) at the current cursor. -/
def emit (s : RState) (x : ℤ) (c : Cell) : RState :=
  { s with ops := s.ops ++ [⟨s.page, x, s.y, c⟩] }

/-- Moving the y cursor down by d. -/
def down (s : RState) (d : ℤ) : RState :=
  { s with y := s.y - d }

/-- The five drawString calls for one line-item row, all at the same y:
str(code), str(desc), str(qty) with default "" each, then the price and
total formatted with default 0. -/
def itemRowOps (page : ℕ) (y : ℤ) (it : RawItem) : List DrawOp :=
  [⟨page, 50, y, .strOpt it.code⟩,
   ⟨page, 120, y, .strOpt it.desc⟩,
   ⟨page, 300, y, .numOpt it.qty⟩,
   ⟨page, 350, y, .money (it.price.getD 0)⟩,
   ⟨page, 450, y, .money (it.total.getD 0)⟩]

/-- One iteration of the item loop: draw the row, y -= 15, and only then, if
y < 50, showPage and reset y to 750. This is the only page-break check in
the whole renderer. -/
def renderRow (s : RState) (it : RawItem) : RState :=
  let s' := down { s with ops := s.ops ++ itemRowOps s.page s.y it } 15
  if s'.y < 50 then { s' with page := s'.page + 1, y := 750 } else s'

/-- The item loop of one image's table. -/
def renderRows (s : RState) (items : List RawItem) : RState :=
  items.foldl renderRow s

/-- One image section: image line, scope line, table header row, the item
rows, then the subtotal line; none of these has a page-break check. -/
def renderResult (s : RState) (r : ResultEntry) : RState :=
  let s := down (emit s 50 (.text ("Image: " ++ r.image))) 15
  let s := down (emit s 50 (.text ("Scope: " ++ r.scope))) 20
  let s := emit s 50 (.text "Code")
  let s := emit s 120 (.text "Description")
  let s := emit s 300 (.text "Qty")
  let s := emit s 350 (.text "Unit Price")
  let s := down (emit s 450 (.text "Total")) 15
  let s := renderRows s r.line_items
  down (emit s 50 (.labeled "Subtotal: " (round2 r.subtotal))) 30

/-- The whole PDF drawn by upload_images: header (title, date, rounded total
estimate) starting at y = 750 on page 1, then every image section in upload
order. -/
def renderJob (jobId dateStr : String) (total : ℚ) (results : List ResultEntry) : RState :=
  let s : RState := ⟨1, 750, []⟩
  let s := down (emit s 50 (.text ("Scope of Work Report - Job ID: " ++ jobId))) 20
  let s := down (emit s 50 (.text ("Date: " ++ dateStr))) 30
  let s := down (emit s 50 (.labeled "Total Estimate: " (round2 total))) 30
  results.foldl renderResult s

/-- os.path.join(UPLOAD_DIR, file.filename): every uploaded image of every
job is written into the single shared uploads directory, keyed only by its
client-supplied filename. -/
def uploadPath (filename : String) : String := "uploads/" ++ filename

/-- os.path.join(REPORT_DIR, f"{job_id}_scope_report.pdf"). -/
def reportPath (jobId : String) : String :=
  "reports/" ++ jobId ++ "_scope_report.pdf"

/-- Every file path written while serving one job: the stored input images
plus the rendered report artifact. -/
def jobPaths (jobId : String) (filenames : List String) : List String :=
  filenames.map uploadPath ++ [reportPath jobId]

/-- Result of the download route. -/
inductive DownloadResult where
  | notFound : DownloadResult
  | file : List ℕ → DownloadResult
deriving DecidableEq, Repr

/-- download_report over a file system modelled as a map from path to stored
bytes: if reports/<job_id>_scope_report.pdf does not exist, the JSON error
body "Report not found" is returned; otherwise FileResponse streams the
stored file's bytes. Nothing is recomputed on this path. -/
def download_report (store : String → Option (List ℕ)) (jobId : String) : DownloadResult :=
  match store (reportPath jobId) with
  | none => .notFound
  | some b => .file b

/-- The intake-level rejection of the upload route. -/
inductive IntakeError where
  | missingFiles : IntakeError
deriving DecidableEq, Repr

/-- The JSON body returned by upload_images. -/
structure UploadResponse where
  job_id : String
  total_estimate : ℚ
  results : List ResultEntry
deriving DecidableEq, Repr

/-- The handler body of upload_images once it runs, over the per-file
analysis dictionaries: job_id is the freshly generated uuid, results and
total_estimate come from the per-image loop. -/
def upload_images (jobId : String) (files : List (String × RawAnalysis)) : UploadResponse :=
  { job_id := jobId
    total_estimate := totalEstimate (files.map Prod.snd)
    results := files.map (fun f => processResult f.1 f.2) }

/-- The upload route as exposed: files: List[UploadFile] = File(...) marks
the multipart field required, so a request carrying no uploaded files fails
request validation (HTTP 422) before the handler body runs; only when files
are present does the handler generate job_id and build the response. -/
def upload_endpoint (jobId : String) (files : List (String × RawAnalysis)) :
    Except IntakeError UploadResponse :=
  if files.isEmpty then .error .missingFiles
  else .ok (upload_images jobId files)

/-- The job id allocated by one call of the upload route, if any: the
handler is the only place a job id is generated, and it runs only on the
success branch. -/
def allocatedJob : Except IntakeError UploadResponse → Option String
  | .error _ => none
  | .ok r => some r.job_id

/-! Helper lemmas shared between the claim theorems. -/

/-- The running += accumulation equals the sum of the mapped list. -/
theorem foldl_add_imageSubtotal (as : List RawAnalysis) :
    ∀ acc : ℚ, as.foldl (fun acc a => acc + imageSubtotal a) acc
      = acc + (as.map imageSubtotal).sum := by
  induction as with
  | nil => intro acc; simp [List.foldl]
  | cons a rest ih =>
      intro acc
      simp only [List.foldl, List.map, List.sum_cons]
      rw [ih]
      ring

/-- total_estimate equals the sum of the per-image subtotals. -/
theorem totalEstimate_eq_sum_map (as : List RawAnalysis) :
    totalEstimate as = (as.map imageSubtotal).sum := by
  simpa using foldl_add_imageSubtotal as 0

/-! Claim C1: degradation of the assessment step. -/

/-- C1, counterexample. A response body that json.loads parses successfully
but that is not a JSON object — here the empty JSON array — is returned by
analyze_damage_with_ai verbatim, not replaced by the empty-result fallback:
the caller then does not receive a well-formed assessment (its .get calls
have nothing to read), refuting that the assessment step always hands the
caller a well-formed (possibly empty) result. -/
theorem c1_nonobject_payload_returned_verbatim :
    analyze_damage_with_ai (.parsed (Json.arr [])) = Json.arr [] ∧
    isWellFormedAssessment (Json.arr []) = false ∧
    Json.getField (Json.arr []) "line_items" = none := by
  exact ⟨rfl, rfl, rfl⟩

/-- C1, amended: when the external vision call raises or its payload fails
JSON parsing, analyze_damage_with_ai returns the fallback assessment, which
is a well-formed object with an empty line_items list and subtotal 0; a
payload that parses as JSON, however, is returned verbatim whatever its
shape. -/
theorem c1_fallback_on_failure (o : AIOutcome)
    (h : o = .apiError ∨ o = .invalidJson) :
    analyze_damage_with_ai o = fallbackAssessment ∧
    Json.getField fallbackAssessment "line_items" = some (Json.arr []) ∧
    Json.getField fallbackAssessment "subtotal" = some (Json.num 0) ∧
    isWellFormedAssessment fallbackAssessment = true := by
  rcases h with h | h <;> subst h <;> exact ⟨rfl, rfl, rfl, rfl⟩

/-- C1, witness: the amended theorem at the concrete outcome of a raised
API call. -/
theorem c1_fallback_on_failure_witness :
    analyze_damage_with_ai .apiError = fallbackAssessment ∧
    Json.getField fallbackAssessment "line_items" = some (Json.arr []) ∧
    Json.getField fallbackAssessment "subtotal" = some (Json.num 0) ∧
    isWellFormedAssessment fallbackAssessment = true :=
  c1_fallback_on_failure .apiError (Or.inl rfl)

/-! Claim C2: grand total versus per-image subtotals versus line items. -/

/-- C2, counterexample. When the assessor supplies a subtotal field, it is
taken verbatim even if it disagrees with the items: one image whose single
item has total 1 but whose dictionary carries subtotal 999 yields
total_estimate 999 while the line items sum to 1. -/
theorem c2_assessor_subtotal_overrides_item_sum :
    totalEstimate [⟨none, some [⟨none, none, none, none, some 1⟩], some 999⟩] = 999 ∧
    sumItemTotals [⟨none, some [⟨none, none, none, none, some 1⟩], some 999⟩] = 1 ∧
    totalEstimate [⟨none, some [⟨none, none, none, none, some 1⟩], some 999⟩]
      ≠ sumItemTotals [⟨none, some [⟨none, none, none, none, some 1⟩], some 999⟩] := by
  refine ⟨?_, ?_, ?_⟩ <;>
    norm_num [totalEstimate, sumItemTotals, imageSubtotal, imageLineItems, itemTotal]

/-- C2, amended: the grand total always equals the sum of the recorded
per-image subtotals, and it equals the sum of the totals of all line items
whenever every image's assessment omits the subtotal field (only then is
each subtotal computed from the items). -/
theorem c2_grand_total_eq_sum_subtotals (as : List RawAnalysis) :
    totalEstimate as = (as.map imageSubtotal).sum ∧
    ((∀ a ∈ as, a.subtotal = none) → totalEstimate as = sumItemTotals as) := by
  refine ⟨totalEstimate_eq_sum_map as, fun h => ?_⟩
  rw [totalEstimate_eq_sum_map, sumItemTotals]
  congr 1
  refine List.map_congr_left fun a ha => ?_
  simp [imageSubtotal, h a ha]

/-- C2, witness: the amended theorem at a one-image job whose assessment
omits the subtotal field, so both equalities hold there. -/
theorem c2_grand_total_witness :
    totalEstimate [⟨none, some [⟨none, none, none, some 0, some 2⟩], none⟩]
      = ([⟨none, some [⟨none, none, none, some 0, some 2⟩], none⟩].map imageSubtotal).sum ∧
    totalEstimate [⟨none, some [⟨none, none, none, some 0, some 2⟩], none⟩]
      = sumItemTotals [⟨none, some [⟨none, none, none, some 0, some 2⟩], none⟩] :=
  ⟨(c2_grand_total_eq_sum_subtotals _).1,
   (c2_grand_total_eq_sum_subtotals _).2 (by decide)⟩

/-! Claim C10: how each image's subtotal and the returned total are built. -/

/-- C10: the recorded subtotal is the assessor-supplied subtotal field
verbatim whenever that field is present; only when it is absent is it the
sum of the items' total fields; and the total_estimate accumulated by the
upload loop is exactly the sum of the recorded per-image subtotals. -/
theorem c10_subtotal_verbatim_or_computed (a : RawAnalysis) (v : ℚ)
    (as : List RawAnalysis) :
    (a.subtotal = some v → imageSubtotal a = v) ∧
    (a.subtotal = none →
      imageSubtotal a = ((imageLineItems a).map itemTotal).sum) ∧
    totalEstimate as = (as.map imageSubtotal).sum := by
  refine ⟨fun h => ?_, fun h => ?_, totalEstimate_eq_sum_map as⟩
  · simp [imageSubtotal, h]
  · simp [imageSubtotal, h]

/-- C10, witness: a dictionary carrying subtotal 7 records subtotal 7 even
though it has no line items at all. -/
theorem c10_subtotal_witness :
    imageSubtotal ⟨none, some [], some 7⟩ = 7 :=
  (c10_subtotal_verbatim_or_computed ⟨none, some [], some 7⟩ 7 []).1 rfl

/-! Claim C5: per-image failure isolation in one job. -/

/-- C5, counterexample. A job of two images where the second image's stored
file cannot be read: alone, the first image is analyzed fine (degrading to
the fallback because its API call failed), but with the unreadable second
image the whole upload aborts with the uncaught read exception — the open()
call sits before the try block — so the first image's analysis is not
included in any report. -/
theorem c5_unreadable_image_aborts_job :
    analyzeJobImages [.readable .apiError, .unreadable] = .error () ∧
    analyzeJobImages [.readable .apiError] = .ok [fallbackAssessment] := by
  exact ⟨rfl, rfl⟩

/-- C5, amended: failures of the external AI call or of payload parsing are
isolated per image — every image whose stored file is readable is analyzed,
a failed analysis degrading to the fallback assessment — but a failure to
read one image's stored bytes propagates and aborts the whole job. -/
theorem c5_ai_failures_isolated (os : List AIOutcome) :
    analyzeJobImages (os.map .readable) = .ok (os.map analyze_damage_with_ai) := by
  induction os with
  | nil => rfl
  | cons o rest ih =>
      simp only [List.map, analyzeJobImages, analyzeImageFile, ih]
      rfl

/-! Claim C6: empty uploads are rejected before a job exists. -/

/-- C6: an upload carrying zero images fails the route's request validation
(the files field is declared required) and is rejected with the intake
error; the handler body never runs, so no job id is allocated and no job
state is created. -/
theorem c6_empty_upload_rejected (jobId : String) :
    upload_endpoint jobId [] = .error .missingFiles ∧
    allocatedJob (upload_endpoint jobId []) = none := by
  exact ⟨rfl, rfl⟩

/-! Claim C7: the download route. -/

/-- C7: download_report returns the not-found error exactly when no report
file is stored under the job id's report path, returns the stored bytes
unchanged when there is one, and its result depends only on what the store
holds at that path — nothing is regenerated, so repeated calls against an
unchanged store return identical bytes. -/
theorem c7_download_served_from_store
    (store store' : String → Option (List ℕ)) (jobId : String) :
    (store (reportPath jobId) = none → download_report store jobId = .notFound) ∧
    (∀ b, store (reportPath jobId) = some b →
      download_report store jobId = .file b) ∧
    (store (reportPath jobId) = store' (reportPath jobId) →
      download_report store jobId = download_report store' jobId) := by
  refine ⟨fun h => ?_, fun b h => ?_, fun h => ?_⟩
  · simp [download_report, h]
  · simp [download_report, h]
  · simp [download_report, h]

/-- C7, witness: a store holding one report serves its bytes back for that
job id. -/
theorem c7_download_witness :
    download_report
      (fun p => if p = reportPath "job-1" then some [37] else none) "job-1"
      = .file [37] :=
  (c7_download_served_from_store
      (fun p => if p = reportPath "job-1" then some [37] else none)
      (fun p => if p = reportPath "job-1" then some [37] else none)
      "job-1").2.1 [37] (if_pos rfl)

/-! Render-level helper lemmas. -/

/-- Drawing one item row appends exactly its five cells, whether or not the
row's decrement triggers a page break afterwards. -/
theorem renderRow_ops (s : RState) (it : RawItem) :
    (renderRow s it).ops = s.ops ++ itemRowOps s.page s.y it := by
  simp only [renderRow, down]
  split <;> rfl

/-- One row adds five drawString operations. -/
theorem renderRow_ops_length (s : RState) (it : RawItem) :
    (renderRow s it).ops.length = s.ops.length + 5 := by
  rw [renderRow_ops]; simp [itemRowOps]

/-- The item loop adds five operations per item. -/
theorem renderRows_ops_length (items : List RawItem) :
    ∀ s : RState, (renderRows s items).ops.length = s.ops.length + 5 * items.length := by
  induction items with
  | nil => intro s; simp [renderRows]
  | cons a rest ih =>
      intro s
      have h2 := ih (renderRow s a)
      have h1 := renderRow_ops_length s a
      show (renderRows (renderRow s a) rest).ops.length = _
      rw [h2, h1]
      simp only [List.length_cons]
      omega

/-- Operations already drawn stay in the canvas through the item loop. -/
theorem mem_renderRows_ops (items : List RawItem) :
    ∀ (s : RState) (op : DrawOp), op ∈ s.ops → op ∈ (renderRows s items).ops := by
  induction items with
  | nil => intro s op h; simpa [renderRows] using h
  | cons a rest ih =>
      intro s op h
      have hrow : op ∈ (renderRow s a).ops := by
        rw [renderRow_ops]; exact List.mem_append_left _ h
      exact ih (renderRow s a) op hrow

/-- Every item of the loop gets its unit-price cell — the assessor-supplied
price with default 0 — drawn at x = 350. -/
theorem price_op_mem_renderRows (items : List RawItem) :
    ∀ (s : RState) (it : RawItem), it ∈ items →
      ∃ op ∈ (renderRows s items).ops,
        op.x = 350 ∧ op.cell = .money (it.price.getD 0) := by
  induction items with
  | nil => intro s it h; cases h
  | cons a rest ih =>
      intro s it h
      rcases List.mem_cons.mp h with rfl | hmem
      · have hrow : (⟨s.page, 350, s.y, .money (it.price.getD 0)⟩ : DrawOp)
            ∈ (renderRow s it).ops := by
          rw [renderRow_ops]
          exact List.mem_append_right _ (by simp [itemRowOps])
        exact ⟨_, mem_renderRows_ops rest (renderRow s it) _ hrow, rfl, rfl⟩
      · exact ih (renderRow s a) it hmem

/-- An image section with no line items never starts a new page: none of its
drawString calls is followed by a page-break check. -/
theorem renderResult_page_of_itemless (s : RState) (r : ResultEntry)
    (h : r.line_items = []) : (renderResult s r).page = s.page := by
  simp [renderResult, renderRows, h, emit, down]

/-- Folding image sections without line items over the canvas never changes
the page. -/
theorem foldl_renderResult_page (rs : List ResultEntry) :
    ∀ s : RState, (∀ r ∈ rs, r.line_items = []) →
      (rs.foldl renderResult s).page = s.page := by
  induction rs with
  | nil => intro s _; rfl
  | cons r rest ih =>
      intro s h
      have h1 := renderResult_page_of_itemless s r (h r (List.mem_cons_self r rest))
      have h2 := ih (renderResult s r) (fun r' hr' => h r' (List.mem_cons_of_mem r hr'))
      simp only [List.foldl_cons]
      rw [h2, h1]

/-! Claim C3: catalog pricing for matched items. -/

/-- C3, counterexample. The catalog prices WTR-101 at 205, so the claim asks
that an item with code WTR-101 and quantity 2 be rendered with the catalog
description, unit price 205, and total round(2 * 205, 2) = 410. The renderer
instead draws the assessor-supplied description "Spray", unit price 1 and
total 7 verbatim: the catalog is never consulted. -/
theorem c3_catalog_price_ignored :
    catalogPrice "WTR-101" = some 205 ∧
    catalogDesc "WTR-101" = some "Water extraction, per hour, per technician" ∧
    (renderRow (RState.mk 1 700 [])
        ⟨some "WTR-101", some "Spray", some 2, some 1, some 7⟩).ops
      = [⟨1, 50, 700, .strOpt (some "WTR-101")⟩,
         ⟨1, 120, 700, .strOpt (some "Spray")⟩,
         ⟨1, 300, 700, .numOpt (some 2)⟩,
         ⟨1, 350, 700, .money 1⟩,
         ⟨1, 450, 700, .money 7⟩] ∧
    round2 (2 * 205) = 410 ∧
    Cell.money 7 ≠ Cell.money (round2 (2 * 205)) ∧
    Cell.money 1 ≠ Cell.money 205 := by
  have hr : round2 (2 * 205) = 410 := by norm_num [round2, pyRound]
  refine ⟨by decide, by decide, by decide, hr, ?_, by norm_num⟩
  rw [hr]; norm_num

/-- C3, amended: for a line item whose code is in the catalog, the rendered
description, unit price and total are still the assessor-supplied fields
(price and total defaulting to 0 when absent); the catalog entry is never
applied. -/
theorem c3_matched_item_renders_assessor_fields (s : RState) (it : RawItem)
    (p : ℚ) (h : catalogPrice (it.code.getD "") = some p) :
    (renderRow s it).ops = s.ops ++ itemRowOps s.page s.y it ∧
    (⟨s.page, 350, s.y, .money (it.price.getD 0)⟩ : DrawOp) ∈ (renderRow s it).ops ∧
    (⟨s.page, 450, s.y, .money (it.total.getD 0)⟩ : DrawOp) ∈ (renderRow s it).ops ∧
    (⟨s.page, 120, s.y, .strOpt it.desc⟩ : DrawOp) ∈ (renderRow s it).ops := by
  refine ⟨renderRow_ops s it, ?_, ?_, ?_⟩ <;>
    rw [renderRow_ops] <;> exact List.mem_append_right _ (by simp [itemRowOps])

/-- C3, witness: the catalog-matched item with code WTR-101, assessor price
1, is drawn with unit-price cell 1. -/
theorem c3_matched_item_witness :
    (⟨1, 350, 700, .money 1⟩ : DrawOp)
      ∈ (renderRow (RState.mk 1 700 [])
          ⟨some "WTR-101", some "Spray", some 2, some 1, some 7⟩).ops :=
  (c3_matched_item_renders_assessor_fields (RState.mk 1 700 [])
    ⟨some "WTR-101", some "Spray", some 2, some 1, some 7⟩ 205 (by decide)).2.1

/-! Claim C4: unmatched items in the report. -/

/-- C4, counterexample. An item whose code ZZZ-999 is absent from the
catalog is rendered with the assessor-supplied price 50, not 0, and its five
cells are exactly its own fields — no "unmatched" indication is drawn
anywhere in its row. -/
theorem c4_unmatched_item_price_not_zero :
    catalogPrice "ZZZ-999" = none ∧
    (renderRow (RState.mk 1 700 [])
        ⟨some "ZZZ-999", some "Mystery work", some 1, some 50, some 50⟩).ops
      = [⟨1, 50, 700, .strOpt (some "ZZZ-999")⟩,
         ⟨1, 120, 700, .strOpt (some "Mystery work")⟩,
         ⟨1, 300, 700, .numOpt (some 1)⟩,
         ⟨1, 350, 700, .money 50⟩,
         ⟨1, 450, 700, .money 50⟩] ∧
    Cell.money 50 ≠ Cell.money 0 := by
  refine ⟨by decide, by decide, by norm_num⟩

/-- C4, amended: every line item — matched or not — appears in the rendered
report: the item loop draws exactly five cells per item and never drops one,
and each item's unit-price cell carries the assessor-supplied price (0 only
when the price field is absent); no "unmatched" marker is rendered. -/
theorem c4_items_never_dropped (s : RState) (items : List RawItem)
    (it : RawItem) (h : it ∈ items) :
    (renderRows s items).ops.length = s.ops.length + 5 * items.length ∧
    ∃ op ∈ (renderRows s items).ops,
      op.x = 350 ∧ op.cell = .money (it.price.getD 0) :=
  ⟨renderRows_ops_length items s, price_op_mem_renderRows items s it h⟩

/-- C4, witness: the amended theorem at a one-item table whose single item
has the uncatalogued code ZZZ-999 and assessor price 50. -/
theorem c4_items_never_dropped_witness :
    (renderRows (RState.mk 1 700 [])
        [⟨some "ZZZ-999", some "Mystery work", some 1, some 50, some 50⟩]).ops.length
      = (RState.mk 1 700 []).ops.length
        + 5 * [(⟨some "ZZZ-999", some "Mystery work", some 1, some 50, some 50⟩ : RawItem)].length ∧
    ∃ op ∈ (renderRows (RState.mk 1 700 [])
        [⟨some "ZZZ-999", some "Mystery work", some 1, some 50, some 50⟩]).ops,
      op.x = 350 ∧ op.cell = .money 50 :=
  c4_items_never_dropped (RState.mk 1 700 [])
    [⟨some "ZZZ-999", some "Mystery work", some 1, some 50, some 50⟩]
    ⟨some "ZZZ-999", some "Mystery work", some 1, some 50, some 50⟩
    (List.mem_cons_self _ _)

/-! Claim C8: pagination. -/

/-- C8, counterexample. A job of nine images whose analyses carry no line
items: each image section consumes 80 units of vertical space with no
page-break check anywhere (the only check sits inside the item loop, which
never runs), so the ninth section's table-header row is drawn at y = -5 —
below the bottom edge of the page — while the renderer still sits on page
1. -/
theorem c8_sections_drawn_below_page :
    (⟨1, 50, -5, .text "Code"⟩ : DrawOp)
      ∈ (renderJob "job-x" "2025-01-01" 0
          (List.replicate 9 ⟨"img.jpg", "ok", [], 0⟩)).ops ∧
    (renderJob "job-x" "2025-01-01" 0
        (List.replicate 9 ⟨"img.jpg", "ok", [], 0⟩)).page = 1 := by
  exact ⟨by decide, by decide⟩

/-- C8, amended: a new page is started only inside an image's line-item
table, after a drawn row leaves the cursor below 50; no other content is
guarded, so image sections whose analyses have no line items never trigger a
page break (and, as the counterexample shows, can be drawn below the
page). -/
theorem c8_no_break_outside_tables (jobId dateStr : String) (total : ℚ)
    (rs : List ResultEntry) (h : ∀ r ∈ rs, r.line_items = []) :
    (renderJob jobId dateStr total rs).page = 1 :=
  (foldl_renderResult_page rs _ h).trans rfl

/-- C8, witness: a one-image itemless job stays on page 1. -/
theorem c8_no_break_witness :
    (renderJob "j" "d" 0 [⟨"a.jpg", "scope", [], 0⟩]).page = 1 :=
  c8_no_break_outside_tables "j" "d" 0 [⟨"a.jpg", "scope", [], 0⟩] (by simp)

/-! Claim C9: per-job storage isolation. -/

/-- C9, counterexample. Two distinct jobs that each upload a file named
photo.jpg both write uploads/photo.jpg: the uploads directory is shared
across jobs and keyed only by the client-supplied filename, so the second
job overwrites the first job's stored image. -/
theorem c9_shared_uploads_collision :
    uploadPath "photo.jpg" ∈ jobPaths "job-a" ["photo.jpg"] ∧
    uploadPath "photo.jpg" ∈ jobPaths "job-b" ["photo.jpg"] ∧
    ("job-a" : String) ≠ "job-b" ∧
    uploadPath "photo.jpg" = "uploads/photo.jpg" := by
  exact ⟨by decide, by decide, by decide, rfl⟩

/-- C9, amended: only the report artifacts are isolated per job — distinct
job ids always give distinct report paths — while uploaded input images of
different jobs share one namespace and can collide on equal filenames. -/
theorem c9_report_path_inj (j1 j2 : String) (h : reportPath j1 = reportPath j2) :
    j1 = j2 := by
  have hd := congrArg String.data h
  simp only [reportPath, String.data_append] at hd
  exact String.ext (List.append_cancel_left (List.append_cancel_right hd))

/-- C9, witness: the report-path injectivity applied at a concrete job
id. -/
theorem c9_report_path_inj_witness : ("job-a" : String) = "job-a" :=
  c9_report_path_inj "job-a" "job-a" rfl

end PhotoScope
